import Mathlib

/-!
# Verification of the TPRM weighted risk-scoring and classification engine

Shallow embedding of the scoring core of the `ai-sandbox-v2` repository:

* `src/modules/tprm_ddq.py` — weighted aggregation (`compute_total_weighted_score`),
  risk level classification (`classify_risk_level`), the static `TPRM_DOMAINS`
  weight model;
* `src/modules/utils.py` — risk bucket classification (`classify_risk_bucket`),
  history snapshots (`snapshot_history`), record validation
  (`validate_vendor_record`);
* `src/modules/validators.py` — `InputValidator` name/filename validation;
* `src/config.py` — `Config.validate_config`;
* `src/modules/importer.py` — bulk Excel import row processing.

Python floats are modelled as exact rationals (`ℚ`); Python's `round(x, 2)`
is modelled as exact round-half-to-even of `100·x` (banker's rounding, which
is what CPython's `round` implements, ignoring binary representation error).
Python exceptions are modelled with `Except String`; the filesystem used by
`snapshot_history` is an explicit association list of (path, contents) and the
wall clock is passed as an explicit timestamp argument.
-/

/-- Round-half-to-even of a rational to an integer: models the rounding mode
of CPython's builtin `round`. -/
def round_half_even (q : ℚ) : ℤ :=
  if q - (⌊q⌋ : ℚ) < 1/2 then ⌊q⌋
  else if 1/2 < q - (⌊q⌋ : ℚ) then ⌊q⌋ + 1
  else if ⌊q⌋ % 2 = 0 then ⌊q⌋ else ⌊q⌋ + 1

/-- Model of Python `round(x, 2)` on exact rationals. -/
def round2 (q : ℚ) : ℚ := (round_half_even (q * 100) : ℚ) / 100

/-! ## Weighted aggregation engine — `src/modules/tprm_ddq.py` -/

/-- A Domain Result as consumed by `compute_total_weighted_score`
(`src/modules/tprm_ddq.py` builds dicts with keys `name`, `weight_pct`,
`score`, `questions`; only the first three matter to scoring). -/
structure DomainResult where
  name : String
  weight_pct : ℚ
  score : ℚ
deriving Repr, DecidableEq

/-- Embedding of `compute_total_weighted_score` (src/modules/tprm_ddq.py:109-118):
two running sums accumulated over the domain results, each rounded to two
decimals at the end. -/
def compute_total_weighted_score (domain_results : List DomainResult) : ℚ × ℚ :=
  let weighted_sum_1to5 :=
    domain_results.foldl (fun acc d => acc + d.score * (d.weight_pct / 100)) 0
  let normalized_pct_sum :=
    domain_results.foldl (fun acc d => acc + (d.score / 5) * d.weight_pct) 0
  (round2 weighted_sum_1to5, round2 normalized_pct_sum)

/-- Embedding of `classify_risk_level` (src/modules/tprm_ddq.py:120-126).
The thresholds `4.0` and `3.0` are literal constants in the source. -/
def classify_risk_level (total_weighted_score : ℚ) : String :=
  if total_weighted_score ≥ 4 then "Low"
  else if total_weighted_score ≥ 3 then "Medium"
  else "High"

/-! ## Risk bucket classifier — `src/modules/utils.py` -/

/-- Embedding of `mapping.get(x, 2)` over the dict
`{"low": 1, "medium": 2, "high": 3}` (src/modules/utils.py:42-44): an exact
string match, every other value defaulting to `2`. -/
def mappingGet (s : String) : ℕ :=
  if s = "low" then 1
  else if s = "medium" then 2
  else if s = "high" then 3
  else 2

/-- Embedding of `classify_risk_bucket` (src/modules/utils.py:37-51). -/
def classify_risk_bucket (likelihood impact : String) : String :=
  let product := mappingGet likelihood * mappingGet impact
  if product ≥ 7 then "high"
  else if product ≥ 4 then "medium"
  else "low"

/-- Modelled from the spec (§4.1): ordinal(low)=1, ordinal(medium)=2,
ordinal(high)=3, any unrecognized value treated as medium=2. -/
def ordinal_spec (s : String) : ℕ :=
  if s = "low" then 1
  else if s = "medium" then 2
  else if s = "high" then 3
  else 2

/-- Modelled from the spec (§4.1): product ≥ 7 → high; 4 ≤ product < 7 →
medium; product < 4 → low. -/
def classify_risk_bucket_spec (likelihood impact : String) : String :=
  let product := ordinal_spec likelihood * ordinal_spec impact
  if 7 ≤ product then "high"
  else if 4 ≤ product then "medium"
  else "low"

/-! ## Static weight model and configuration — `src/modules/tprm_ddq.py`, `src/config.py` -/

/-- A question definition inside a domain (src/modules/tprm_ddq.py). -/
structure Question where
  q : String
  weight : ℚ
deriving Repr, DecidableEq

/-- A domain definition of the static weight model. -/
structure DomainDef where
  name : String
  weight : ℚ
  questions : List Question
deriving Repr, DecidableEq

/-- Embedding of the `TPRM_DOMAINS` constant (src/modules/tprm_ddq.py:11-70). -/
def TPRM_DOMAINS : List DomainDef := [
  { name := "Data Protection", weight := 25, questions := [
      { q := "Is customer data encrypted at rest and in transit?", weight := 1 },
      { q := "Are there defined data retention and disposal procedures?", weight := 1 },
      { q := "Is there evidence of SOC2/ISO27001 certifications related to data protection?", weight := 1 }] },
  { name := "Compliance", weight := 15, questions := [
      { q := "Do you maintain compliance with GDPR, HIPAA, PCI-DSS or similar?", weight := 1 },
      { q := "Are certifications / audits current and valid (not expired)?", weight := 1 }] },
  { name := "Access Control", weight := 15, questions := [
      { q := "Is MFA enforced for privileged and remote access?", weight := 1 },
      { q := "Are access reviews / offboarding revocations performed regularly?", weight := 1 }] },
  { name := "Incident Response", weight := 15, questions := [
      { q := "Is there a documented incident response plan?", weight := 1 },
      { q := "Has the IR plan been tested in the last 12 months?", weight := 1 },
      { q := "Is there a defined escalation / RACI for incidents?", weight := 1 }] },
  { name := "Business Continuity", weight := 10, questions := [
      { q := "Do you have BCP/DR plans that are tested annually?", weight := 1 },
      { q := "Are RTO/RPO objectives defined and achievable for this service?", weight := 1 }] },
  { name := "Subprocessor Management", weight := 10, questions := [
      { q := "Do you assess and monitor critical subprocessors / 4th parties?", weight := 1 },
      { q := "Do you maintain exit / contingency plans for critical suppliers?", weight := 1 }] },
  { name := "Governance & Documentation", weight := 10, questions := [
      { q := "Are key policies owned, reviewed, and approved annually?", weight := 1 },
      { q := "Are risk/security roles and responsibilities clearly documented?", weight := 1 }] }]

/-- The settings of `Config` (src/config.py) that participate in
`validate_config`. -/
structure Config where
  ollama_url : String
  risk_threshold_low : ℚ
  risk_threshold_medium : ℚ
deriving Repr, DecidableEq

/-- The default configuration values of `src/config.py` (no environment
overrides): `RISK_THRESHOLD_LOW = 4.0`, `RISK_THRESHOLD_MEDIUM = 3.0`. -/
def default_config : Config :=
  { ollama_url := "http://localhost:11434/api/generate"
    risk_threshold_low := 4
    risk_threshold_medium := 3 }

/-- Embedding of `Config.validate_config` (src/config.py:61-75): collects the
error messages and raises `ValueError` exactly when the list is non-empty.
The checks are: `OLLAMA_URL` non-empty, and
`RISK_THRESHOLD_LOW > RISK_THRESHOLD_MEDIUM`.  No other configuration (in
particular no domain-weight data) is examined. -/
def validate_config (cfg : Config) : Except String Unit :=
  let errors : List String :=
    (if cfg.ollama_url = "" then ["OLLAMA_URL is not configured"] else []) ++
    (if cfg.risk_threshold_low ≤ cfg.risk_threshold_medium
     then ["RISK_THRESHOLD_LOW must be greater than RISK_THRESHOLD_MEDIUM"] else [])
  if errors = [] then Except.ok ()
  else Except.error (String.intercalate ", " errors)

/-- Modelled from the source module top level: importing
`src/modules/tprm_ddq.py` only binds the `TPRM_DOMAINS` constant and the
function definitions; no statement at module scope inspects or validates the
domain weights, so loading succeeds for every domain list. -/
def tprm_module_load (domains : List DomainDef) : Except String (List DomainDef) :=
  Except.ok domains

/-- Modelled from the spec (§4.4): a risk level classifier that reads the
configured thresholds — score ≥ configured Low threshold → "Low", else score ≥
configured Medium threshold → "Medium", else "High". To be compared with the
source's `classify_risk_level`, which hardcodes `4.0` and `3.0`. -/
def classify_risk_level_spec (cfg : Config) (w : ℚ) : String :=
  if w ≥ cfg.risk_threshold_low then "Low"
  else if w ≥ cfg.risk_threshold_medium then "Medium"
  else "High"

/-! ## Input validators — `src/modules/validators.py` -/

/-- Python's whitespace class `\s` (re module, ASCII-relevant part). -/
def pySpaceChar (c : Char) : Bool :=
  c == ' ' || c == '\t' || c == '\n' || c == '\r' || c == '\x0b' || c == '\x0c'

/-- ASCII lowercase of one character (the fragment of Python `str.lower()`
these inputs exercise). -/
def pyCharLower (c : Char) : Char :=
  if 65 ≤ c.toNat ∧ c.toNat ≤ 90 then Char.ofNat (c.toNat + 32) else c

/-- Python `str.lower()` (ASCII model). -/
def pyLower (s : String) : String := ⟨s.data.map pyCharLower⟩

/-- Python `str.strip()`: remove whitespace from both ends. -/
def pyStrip (s : String) : String :=
  ⟨(((s.data.dropWhile pySpaceChar).reverse).dropWhile pySpaceChar).reverse⟩

/-- Replace every non-overlapping occurrence of `p` by `r`, left to right
(the semantics of Python `str.replace`).  The fuel argument only serves
structural recursion; one unit is spent per consumed character, so
`cs.length` units always suffice. -/
def replaceSub (p r : List Char) : ℕ → List Char → List Char
  | 0, cs => cs
  | _ + 1, [] => []
  | fuel + 1, c :: t =>
    if p ≠ [] ∧ p.isPrefixOf (c :: t) then
      r ++ replaceSub p r fuel ((c :: t).drop p.length)
    else
      c :: replaceSub p r fuel t

/-- Python `s.replace(pat, rep)`. -/
def pyReplace (s pat rep : String) : String :=
  ⟨replaceSub pat.data rep.data s.data.length s.data⟩

/-- `needle` occurs as a contiguous run somewhere in `hay`. -/
def containsSub (needle : List Char) : List Char → Bool
  | [] => needle.isEmpty
  | c :: t => needle.isPrefixOf (c :: t) || containsSub needle t

/-- `cs` starts with one or more whitespace characters followed by `t`
(the `\s+t` part of a regex). -/
def spacesThen (t : List Char) : List Char → Bool
  | [] => false
  | c :: r => pySpaceChar c && (t.isPrefixOf r || spacesThen t r)

/-- The command-injection alternation of `DANGEROUS_PATTERNS`
(`rm\s+-rf|del\s+/|drop\s+table`) matched at the head of `cs`
(already lowercased, since the search is case-insensitive). -/
def cmdInjAt (cs : List Char) : Bool :=
  (['r','m'].isPrefixOf cs && spacesThen ['-','r','f'] (cs.drop 2)) ||
  (['d','e','l'].isPrefixOf cs && spacesThen ['/'] (cs.drop 3)) ||
  (['d','r','o','p'].isPrefixOf cs && spacesThen ['t','a','b','l','e'] (cs.drop 4))

/-- `re.search`-style scan: does `p` match at some position of `cs`? -/
def searchAt (p : List Char → Bool) : List Char → Bool
  | [] => p []
  | c :: r => p (c :: r) || searchAt p r

/-- A character of the class `[<>:"|?*]` of `DANGEROUS_PATTERNS`. -/
def dangerousChar (c : Char) : Bool :=
  c == '<' || c == '>' || c == ':' || c == '\"' || c == '|' || c == '?' || c == '*'

/-- Embedding of the `DANGEROUS_PATTERNS` check
(src/modules/validators.py:26-31, applied with `re.search(..., IGNORECASE)`):
path traversal `..`, invalid filename characters, control characters, and the
command-injection patterns. -/
def hasDangerousPattern (s : String) : Bool :=
  containsSub ['.', '.'] s.data ||
  s.data.any dangerousChar ||
  s.data.any (fun c => c.toNat ≤ 31) ||
  searchAt cmdInjAt (pyLower s).data

/-- Embedding of `InputValidator.validate_organization_name`
(src/modules/validators.py:33-64). -/
def validate_organization_name (name : String) : Except String String :=
  if name = "" then Except.error "Organization name must be a non-empty string"
  else
    let name := pyStrip name
    if name.length < 2 then
      Except.error "Organization name must be at least 2 characters"
    else if name.length > 100 then
      Except.error "Organization name must be less than 100 characters"
    else if hasDangerousPattern name then
      Except.error "Organization name contains invalid characters"
    else Except.ok name

/-- Embedding of `InputValidator.validate_vendor_name`
(src/modules/validators.py:66-97). -/
def validate_vendor_name (name : String) : Except String String :=
  if name = "" then Except.error "Vendor name must be a non-empty string"
  else
    let name := pyStrip name
    if name.length < 2 then
      Except.error "Vendor name must be at least 2 characters"
    else if name.length > 100 then
      Except.error "Vendor name must be less than 100 characters"
    else if hasDangerousPattern name then
      Except.error "Vendor name contains invalid characters"
    else Except.ok name

/-- Embedding of `InputValidator.sanitize_filename`
(src/modules/validators.py:192-227): dangerous-pattern check, then removal of
the character class `[<>:"|?*\x00-\x1f]` and of `..`, then emptiness and
length checks. -/
def sanitize_filename (filename : String) : Except String String :=
  if filename = "" then Except.error "Filename must be a non-empty string"
  else
    let filename := pyStrip filename
    if hasDangerousPattern filename then
      Except.error "Filename contains invalid characters"
    else
      let safe1 : String :=
        ⟨filename.data.filter (fun c => !(dangerousChar c || c.toNat ≤ 31))⟩
      let safe2 := pyReplace safe1 ".." ""
      if safe2 = "" then
        Except.error "Filename contains only invalid characters"
      else if safe2.length > 255 then
        Except.error "Filename too long (max 255 characters)"
      else Except.ok safe2

/-! ## History snapshots — `src/modules/utils.py` -/

/-- The history directory modelled as a mapping from file name to contents. -/
abbrev FS := List (String × String)

/-- Model of `pathlib.Path.write_text`: creates the file or silently
truncates and replaces an existing file at the same path. -/
def writeText (fs : FS) (path content : String) : FS :=
  (path, content) :: fs.filter (fun pc => pc.1 != path)

/-- Embedding of `snapshot_history` (src/modules/utils.py:153-188).  The
timestamp `ts` stands for `now_iso()`, which formats the wall clock as
`%Y-%m-%d_%H-%M-%S` (second resolution, src/modules/utils.py:29-30); the
record is already serialized to `record_json`.  Validation failures become
the `RuntimeError` raised by the function. -/
def snapshot_history (fs : FS) (org_id vendor_name record_json ts : String) :
    Except String FS :=
  match validate_organization_name org_id with
  | Except.error e => Except.error ("Failed to create snapshot: " ++ e)
  | Except.ok org' =>
    match validate_vendor_name vendor_name with
    | Except.error e => Except.error ("Failed to create snapshot: " ++ e)
    | Except.ok vendor' =>
      match sanitize_filename (pyReplace org' " " "_") with
      | Except.error e => Except.error ("Failed to create snapshot: " ++ e)
      | Except.ok safe_org =>
        match sanitize_filename (pyReplace vendor' " " "_") with
        | Except.error e => Except.error ("Failed to create snapshot: " ++ e)
        | Except.ok safe_vendor =>
          Except.ok (writeText fs
            (safe_org ++ "_" ++ safe_vendor ++ "_" ++ ts ++ ".json") record_json)

/-! ## Bulk import — `src/modules/importer.py` -/

/-- A spreadsheet cell as delivered by `iter_rows(values_only=True)`:
a string, an integer, or an empty cell (Python `None`). -/
inductive Cell where
  | str (s : String)
  | int (n : ℤ)
  | empty
deriving Repr, DecidableEq

/-- Python `str(cell)` on the cell values above (`str(None) = "None"`). -/
def pyStr : Cell → String
  | Cell.str s => s
  | Cell.int n => toString n
  | Cell.empty => "None"

/-- Decimal digit run to a natural number (for `int(str)`). -/
def digitsToNat (ds : List Char) : Option ℕ :=
  if ds ≠ [] && ds.all Char.isDigit then
    some (ds.foldl (fun a c => a * 10 + (c.toNat - 48)) 0)
  else none

/-- Python `int(str)`: optional sign and decimal digits after stripping
surrounding whitespace, `ValueError` otherwise. -/
def parseIntStr (t : String) : Option ℤ :=
  match (pyStrip t).data with
  | '+' :: ds => (digitsToNat ds).map (fun n => (n : ℤ))
  | '-' :: ds => (digitsToNat ds).map (fun n => -(n : ℤ))
  | ds => (digitsToNat ds).map (fun n => (n : ℤ))

/-- Python `int(cell)`: an `int` passes through, a parsable string is
converted, `None` raises `TypeError`, a non-numeric string raises
`ValueError`.  These exceptions are uncaught in `importer.run`. -/
def pyInt : Cell → Except String ℤ
  | Cell.int n => Except.ok n
  | Cell.empty =>
    Except.error "TypeError: int() argument must be a string, a bytes-like object or a real number, not NoneType"
  | Cell.str s =>
    match parseIntStr s with
    | some n => Except.ok n
    | none => Except.error ("ValueError: invalid literal for int() with base 10: " ++ s)

/-- A Python value inside a vendor-record dict. -/
inductive PyVal where
  | str (s : String)
  | int (n : ℤ)
  | rat (q : ℚ)
  | list (l : List PyVal)
  | dict (d : List (String × PyVal))
  | noneV

/-- A vendor record as the importer builds it: a Python dict, modelled as an
association list preserving insertion order. -/
abbrev VendorRecord := List (String × PyVal)

/-- The `required` field list of `validate_vendor_record`
(src/modules/utils.py:195-196). -/
def required_fields : List String :=
  ["org_id", "vendor_name", "service", "business_owner",
   "overall_control_score", "likelihood", "impact"]

/-- Embedding of `validate_vendor_record` (src/modules/utils.py:190-198):
the required fields that are absent from the dict or bound to `""` or
`None`. -/
def validate_vendor_record (record : VendorRecord) : List String :=
  required_fields.filter (fun f =>
    match record.lookup f with
    | Option.none => true
    | some (PyVal.str s) => s == ""
    | some PyVal.noneV => true
    | some _ => false)

/-- The `required_cols` list of `importer.run` (src/modules/importer.py:21-26). -/
def importer_required_cols : List String :=
  ["org_id", "vendor_name", "service_description",
   "regulatory_scope", "business_owner",
   "likelihood", "impact",
   "ac_iam", "encrypt", "logging", "bcp", "privacy"]

/-- Embedding of `col_index = {h: i for i, h in enumerate(headers)}`:
the index of the last occurrence of `h` in `headers` (a later duplicate key
overrides an earlier one in a dict comprehension). -/
def col_index (headers : List String) (h : String) : Option ℕ :=
  (List.range headers.length).reverse.find? (fun i => headers.get? i == some h)

/-- `row[col_index[h]]`, with an absent position read as an empty cell. -/
def getCol (headers : List String) (row : List Cell) (h : String) : Cell :=
  match col_index headers h with
  | some i => row.getD i Cell.empty
  | Option.none => Cell.empty

/-- The outcome of one loop iteration of `importer.run`: either the row is
skipped with the reported list of missing fields
(`⚠ Skipping {vendor} for {org} due to missing {missing}`), or a record is
committed to the database and snapshotted. -/
inductive RowOutcome where
  | skipped (vendor_name org_id : String) (missing : List String)
  | imported (org_id vendor_name : String) (record : VendorRecord)

/-- Embedding of one iteration of the row loop of `importer.run`
(src/modules/importer.py:35-83).  `ts` stands for
`datetime.datetime.now().isoformat()`.  An `Except.error` is an uncaught
Python exception escaping the loop. -/
def processRow (headers : List String) (ts : String) (row : List Cell) :
    Except String RowOutcome := do
  let org_id := pyStrip (pyStr (getCol headers row "org_id"))
  let vendor_name := pyStrip (pyStr (getCol headers row "vendor_name"))
  let service_desc := pyStrip (pyStr (getCol headers row "service_description"))
  let regulator := pyStrip (pyStr (getCol headers row "regulatory_scope"))
  let owner := pyStrip (pyStr (getCol headers row "business_owner"))
  let likelihood := pyLower (pyStrip (pyStr (getCol headers row "likelihood")))
  let impact := pyLower (pyStrip (pyStr (getCol headers row "impact")))
  let ac ← pyInt (getCol headers row "ac_iam")
  let enc ← pyInt (getCol headers row "encrypt")
  let lg ← pyInt (getCol headers row "logging")
  let bc ← pyInt (getCol headers row "bcp")
  let pv ← pyInt (getCol headers row "privacy")
  let control_scores : List (String × ℤ) :=
    [("Access Control / Identity Management", ac),
     ("Encryption & Key Management", enc),
     ("Monitoring & Logging", lg),
     ("Business Continuity / DR / Resilience", bc),
     ("Privacy & Regulatory Compliance", pv)]
  let overall_control : ℚ := round2 (((ac + enc + lg + bc + pv : ℤ) : ℚ) / 5)
  let risk_bucket := classify_risk_bucket likelihood impact
  let record : VendorRecord :=
    [("org_id", PyVal.str org_id),
     ("vendor_name", PyVal.str vendor_name),
     ("service", PyVal.str service_desc),
     ("regulator", PyVal.str regulator),
     ("business_owner", PyVal.str owner),
     ("likelihood", PyVal.str likelihood),
     ("impact", PyVal.str impact),
     ("risk_bucket", PyVal.str risk_bucket),
     ("control_scores", PyVal.dict (control_scores.map (fun cs => (cs.1, PyVal.int cs.2)))),
     ("overall_control_score", PyVal.rat overall_control),
     ("assessed_at", PyVal.str ts),
     ("assessed_by", PyVal.str "import"),
     ("open_actions", PyVal.list []),
     ("risk_acceptances", PyVal.list [])]
  let missing := validate_vendor_record record
  if missing ≠ [] then
    pure (RowOutcome.skipped vendor_name org_id missing)
  else
    pure (RowOutcome.imported org_id vendor_name record)

/-- The row loop of `importer.run`: rows are processed in order; the first
uncaught exception aborts the loop, losing the remaining rows (the outcomes
accumulated so far are kept for inspection). -/
def runRows (headers : List String) (ts : String) :
    List (List Cell) → List RowOutcome → Except (List RowOutcome × String) (List RowOutcome)
  | [], acc => Except.ok acc
  | row :: rest, acc =>
    match processRow headers ts row with
    | Except.error e => Except.error (acc, e)
    | Except.ok o => runRows headers ts rest (acc ++ [o])

/-- Overall result of `importer.run` (src/modules/importer.py:28-86). -/
inductive ImportResult where
  | missingColumn (c : String)
  | aborted (processed : List RowOutcome) (err : String)
  | completed (outcomes : List RowOutcome)

/-- Embedding of `importer.run`: the header check
(`❌ Missing column in Excel` and early return), then the row loop. -/
def importer_run (headers : List String) (ts : String) (rows : List (List Cell)) :
    ImportResult :=
  match importer_required_cols.find? (fun rc => (col_index headers rc).isNone) with
  | some rc => ImportResult.missingColumn rc
  | Option.none =>
    match runRows headers ts rows [] with
    | Except.error (acc, e) => ImportResult.aborted acc e
    | Except.ok acc => ImportResult.completed acc


/-! ## Sample data used in witnesses and counterexamples -/

/-- The seven shipped domains, each scored 4 (spec §8 concrete scenario):
the domain results `tprm_ddq.run` builds from `TPRM_DOMAINS` with every
question answered 4. -/
def ddq_all_fours : List DomainResult :=
  [{ name := "Data Protection", weight_pct := 25, score := 4 },
   { name := "Compliance", weight_pct := 15, score := 4 },
   { name := "Access Control", weight_pct := 15, score := 4 },
   { name := "Incident Response", weight_pct := 15, score := 4 },
   { name := "Business Continuity", weight_pct := 10, score := 4 },
   { name := "Subprocessor Management", weight_pct := 10, score := 4 },
   { name := "Governance & Documentation", weight_pct := 10, score := 4 }]

/-- A domain configuration whose weights sum to 50, not 100. -/
def half_weight_domains : List DomainDef :=
  [{ name := "Data Protection", weight := 50, questions := [] }]

/-- A configuration with a raised Low threshold (4.5) that still passes
`validate_config`. -/
def cfg_raised_low : Config :=
  { ollama_url := "http://localhost:11434/api/generate"
    risk_threshold_low := 9/2
    risk_threshold_medium := 3 }

/-- An import row in the canonical column order of `importer_required_cols`:
text cells followed by the five integer control scores. -/
def mkRow (org vendor svc reg owner like imp : String) (a e l b p : ℤ) : List Cell :=
  [Cell.str org, Cell.str vendor, Cell.str svc, Cell.str reg, Cell.str owner,
   Cell.str like, Cell.str imp, Cell.int a, Cell.int e, Cell.int l, Cell.int b, Cell.int p]

/-- A well-formed import row. -/
def rowOne : List Cell := mkRow "OrgA" "VendorOne" "Payroll" "GDPR" "Alice" "low" "high" 4 5 3 4 5

/-- The record `importer.run` builds from `rowOne` (timestamp "T"). -/
def recordOne : VendorRecord :=
  [("org_id", PyVal.str "OrgA"),
   ("vendor_name", PyVal.str "VendorOne"),
   ("service", PyVal.str "Payroll"),
   ("regulator", PyVal.str "GDPR"),
   ("business_owner", PyVal.str "Alice"),
   ("likelihood", PyVal.str "low"),
   ("impact", PyVal.str "high"),
   ("risk_bucket", PyVal.str "low"),
   ("control_scores", PyVal.dict
     [("Access Control / Identity Management", PyVal.int 4),
      ("Encryption & Key Management", PyVal.int 5),
      ("Monitoring & Logging", PyVal.int 3),
      ("Business Continuity / DR / Resilience", PyVal.int 4),
      ("Privacy & Regulatory Compliance", PyVal.int 5)]),
   ("overall_control_score", PyVal.rat (round2 (((4 + 5 + 3 + 4 + 5 : ℤ) : ℚ) / 5))),
   ("assessed_at", PyVal.str "T"),
   ("assessed_by", PyVal.str "import"),
   ("open_actions", PyVal.list []),
   ("risk_acceptances", PyVal.list [])]

/-- An import row whose `ac_iam` control-score cell is empty (Python `None`). -/
def rowMissingScore : List Cell :=
  [Cell.str "OrgA", Cell.str "VendorTwo", Cell.str "Hosting", Cell.str "PCI",
   Cell.str "Bob", Cell.str "low", Cell.str "low",
   Cell.empty, Cell.int 5, Cell.int 3, Cell.int 4, Cell.int 5]

/-- A second well-formed import row, placed after the malformed one. -/
def rowTwo : List Cell := mkRow "OrgB" "VendorFour" "Backup" "HIPAA" "Dan" "medium" "low" 3 3 3 3 3

/-- An import row whose required `service_description` field is empty text. -/
def rowEmptyService : List Cell :=
  mkRow "OrgA" "VendorThree" "" "PCI" "Cara" "low" "low" 3 3 3 3 3

/-- The `TypeError` message of Python `int(None)`. -/
def int_none_type_error : String :=
  "TypeError: int() argument must be a string, a bytes-like object or a real number, not NoneType"

/-! ## Helper lemmas -/

theorem floor_le_round_half_even (q : ℚ) : ⌊q⌋ ≤ round_half_even q := by
  unfold round_half_even
  split_ifs <;> omega

theorem round_half_even_le_ceil (q : ℚ) : round_half_even q ≤ ⌈q⌉ := by
  have hfc : (⌈q⌉ : ℤ) ≤ ⌊q⌋ + 1 := Int.ceil_le_floor_add_one q
  have hflt : (⌊q⌋ : ℚ) ≤ q := Int.floor_le q
  have hqc : q ≤ (⌈q⌉ : ℚ) := Int.le_ceil q
  unfold round_half_even
  split_ifs with h1 h2 h3
  · exact Int.floor_le_ceil q
  · -- r > 1/2 means q is not an integer, so ⌈q⌉ = ⌊q⌋ + 1
    by_contra hc
    push_neg at hc
    have : ⌈q⌉ ≤ ⌊q⌋ := by omega
    have : (⌈q⌉ : ℚ) ≤ (⌊q⌋ : ℚ) := by exact_mod_cast this
    linarith
  · exact Int.floor_le_ceil q
  · -- r = 1/2 exactly, so q is not an integer and ⌈q⌉ = ⌊q⌋ + 1
    by_contra hc
    push_neg at hc
    have : ⌈q⌉ ≤ ⌊q⌋ := by omega
    have : (⌈q⌉ : ℚ) ≤ (⌊q⌋ : ℚ) := by exact_mod_cast this
    linarith

theorem abs_round_half_even_sub (q : ℚ) : |(round_half_even q : ℚ) - q| ≤ 1/2 := by
  have hflt : (⌊q⌋ : ℚ) ≤ q := Int.floor_le q
  have hlt : q < (⌊q⌋ : ℚ) + 1 := Int.lt_floor_add_one q
  unfold round_half_even
  split_ifs with h1 h2 h3 <;> rw [abs_le] <;> push_cast <;> constructor <;> linarith

/-- If `q ≤ n` for an integer bound `n`, rounding keeps the bound. -/
theorem round_half_even_le (q : ℚ) (n : ℤ) (h : q ≤ (n : ℚ)) :
    round_half_even q ≤ n := by
  have : ⌈q⌉ ≤ n := Int.ceil_le.mpr h
  exact le_trans (round_half_even_le_ceil q) this

/-- If `n ≤ q` for an integer bound `n`, rounding keeps the bound. -/
theorem le_round_half_even (q : ℚ) (n : ℤ) (h : (n : ℚ) ≤ q) :
    n ≤ round_half_even q := by
  have : n ≤ ⌊q⌋ := Int.le_floor.mpr h
  exact le_trans this (floor_le_round_half_even q)

theorem abs_round2_sub (q : ℚ) : |round2 q - q| ≤ 1/200 := by
  have h := abs_round_half_even_sub (q * 100)
  unfold round2
  have h200 : (0:ℚ) < 100 := by norm_num
  rw [abs_le] at h ⊢
  exact ⟨by linarith [h.1], by linarith [h.2]⟩

theorem round2_le (q : ℚ) (n : ℤ) (h : q ≤ (n : ℚ)) : round2 q ≤ (n : ℚ) := by
  unfold round2
  have : round_half_even (q * 100) ≤ n * 100 := by
    apply round_half_even_le
    push_cast
    linarith
  rw [div_le_iff₀ (by norm_num : (0:ℚ) < 100)]
  calc ((round_half_even (q * 100) : ℚ)) ≤ ((n * 100 : ℤ) : ℚ) := by exact_mod_cast this
    _ = (n : ℚ) * 100 := by push_cast; ring

theorem le_round2 (q : ℚ) (n : ℤ) (h : (n : ℚ) ≤ q) : (n : ℚ) ≤ round2 q := by
  unfold round2
  have : n * 100 ≤ round_half_even (q * 100) := by
    apply le_round_half_even
    push_cast
    linarith
  rw [le_div_iff₀ (by norm_num : (0:ℚ) < 100)]
  calc (n : ℚ) * 100 = ((n * 100 : ℤ) : ℚ) := by push_cast; ring
    _ ≤ (round_half_even (q * 100) : ℚ) := by exact_mod_cast this

theorem foldl_add_eq_sum (f : DomainResult → ℚ) (l : List DomainResult) (a : ℚ) :
    l.foldl (fun acc d => acc + f d) a = a + (l.map f).sum := by
  induction l generalizing a with
  | nil => simp
  | cons x xs ih => simp [List.foldl_cons, ih (a + f x)]; ring

/-- The two fold accumulations in `compute_total_weighted_score` are the two
sums of the spec, rounded independently. -/
theorem compute_total_weighted_score_eq (ds : List DomainResult) :
    compute_total_weighted_score ds =
      (round2 ((ds.map (fun d => d.score * (d.weight_pct / 100))).sum),
       round2 ((ds.map (fun d => (d.score / 5) * d.weight_pct)).sum)) := by
  unfold compute_total_weighted_score
  rw [foldl_add_eq_sum (fun d => d.score * (d.weight_pct / 100)) ds 0,
      foldl_add_eq_sum (fun d => (d.score / 5) * d.weight_pct) ds 0]
  simp

/-- C1: for every list of Domain Results, `compute_total_weighted_score`
returns the pair of `round2 (Σ score·weight_pct/100)` and
`round2 (Σ (score/5)·weight_pct)`, the two sums rounded independently of one
another. -/
theorem claim_C1_weighted_and_composite_sums (ds : List DomainResult) :
    compute_total_weighted_score ds =
      (round2 ((ds.map (fun d => d.score * (d.weight_pct / 100))).sum),
       round2 ((ds.map (fun d => (d.score / 5) * d.weight_pct)).sum)) :=
  compute_total_weighted_score_eq ds

/-- C2: `classify_risk_level` returns "Low" for weighted_score ≥ 4.0,
"Medium" for 3.0 ≤ weighted_score < 4.0, "High" for weighted_score < 3.0;
in particular exactly 4.0 → "Low", exactly 3.0 → "Medium", 2.999 → "High". -/
theorem claim_C2_risk_level_thresholds (w : ℚ) :
    (4 ≤ w → classify_risk_level w = "Low") ∧
    (3 ≤ w ∧ w < 4 → classify_risk_level w = "Medium") ∧
    (w < 3 → classify_risk_level w = "High") ∧
    classify_risk_level 4 = "Low" ∧
    classify_risk_level 3 = "Medium" ∧
    classify_risk_level (2999/1000) = "High" := by
  unfold classify_risk_level
  refine ⟨fun h => if_pos h, fun h => ?_, fun h => ?_, by norm_num, by norm_num, by norm_num⟩
  · rw [if_neg (by simp; linarith [h.2]), if_pos h.1]
  · rw [if_neg (by simp; linarith), if_neg (by simp; linarith)]

theorem claim_C2_witness :
    classify_risk_level 4 = "Low" ∧ classify_risk_level 3 = "Medium" ∧
    classify_risk_level (2999/1000) = "High" :=
  ⟨(claim_C2_risk_level_thresholds 4).1 (by norm_num),
   (claim_C2_risk_level_thresholds 3).2.1 ⟨by norm_num, by norm_num⟩,
   (claim_C2_risk_level_thresholds (2999/1000)).2.2.1 (by norm_num)⟩

/-- C3: `classify_risk_bucket` is a pure total function agreeing with the
spec's ordinal formula (low=1, medium=2, high=3, unrecognized=2;
product ≥ 7 → high, ≥ 4 → medium, else low) and always returning one of the
three buckets. -/
theorem claim_C3_risk_bucket_total (likelihood impact : String) :
    classify_risk_bucket likelihood impact = classify_risk_bucket_spec likelihood impact ∧
    (classify_risk_bucket likelihood impact = "low" ∨
     classify_risk_bucket likelihood impact = "medium" ∨
     classify_risk_bucket likelihood impact = "high") := by
  refine ⟨rfl, ?_⟩
  dsimp only [classify_risk_bucket]
  split_ifs <;> simp

/-- C7 fails on the code: `mapping.get` matches strings exactly, so "High"
falls to the default ordinal 2 while "high" maps to 3, and the bucket
changes with letter case. -/
theorem claim_C7_counterexample :
    classify_risk_bucket "High" "high" ≠ classify_risk_bucket "high" "high" := by decide

/-- C7 (amended): `classify_risk_bucket` is not case-insensitive — any
argument other than exactly "low"/"medium"/"high" is treated as unrecognized
and defaults to the medium ordinal, so e.g. ("High","high") classifies as
"medium" while ("high","high") classifies as "high". -/
theorem claim_C7_amended_case_sensitivity :
    (∀ l i : String, l ≠ "low" → l ≠ "medium" → l ≠ "high" →
        classify_risk_bucket l i = classify_risk_bucket "medium" i) ∧
    (∀ l i : String, i ≠ "low" → i ≠ "medium" → i ≠ "high" →
        classify_risk_bucket l i = classify_risk_bucket l "medium") ∧
    classify_risk_bucket "High" "high" = "medium" ∧
    classify_risk_bucket "high" "high" = "high" := by
  have hm2 : mappingGet "medium" = 2 := rfl
  refine ⟨?_, ?_, by decide, by decide⟩
  · intro l i h1 h2 h3
    have hm : mappingGet l = 2 := by
      unfold mappingGet
      rw [if_neg h1, if_neg h2, if_neg h3]
    unfold classify_risk_bucket
    rw [hm, hm2]
  · intro l i h1 h2 h3
    have hm : mappingGet i = 2 := by
      unfold mappingGet
      rw [if_neg h1, if_neg h2, if_neg h3]
    unfold classify_risk_bucket
    rw [hm, hm2]

theorem claim_C7_witness :
    classify_risk_bucket "HIGH" "low" = classify_risk_bucket "medium" "low" :=
  claim_C7_amended_case_sensitivity.1 "HIGH" "low" (by decide) (by decide) (by decide)

theorem sum_weighted_bounds (ds : List DomainResult)
    (h : ∀ d ∈ ds, 0 ≤ d.weight_pct ∧ 1 ≤ d.score ∧ d.score ≤ 5) :
    (ds.map (fun d => d.weight_pct)).sum / 100 ≤
      (ds.map (fun d => d.score * (d.weight_pct / 100))).sum ∧
    (ds.map (fun d => d.score * (d.weight_pct / 100))).sum ≤
      5 * ((ds.map (fun d => d.weight_pct)).sum / 100) := by
  induction ds with
  | nil => simp
  | cons d t ih =>
    have hd := h d (List.mem_cons_self d t)
    obtain ⟨ih1, ih2⟩ := ih (fun x hx => h x (List.mem_cons_of_mem d hx))
    simp only [List.map_cons, List.sum_cons]
    rw [add_div]
    constructor
    · have hlow : d.weight_pct / 100 ≤ d.score * (d.weight_pct / 100) := by
        nlinarith [hd.1, hd.2.1]
      linarith
    · have hhigh : d.score * (d.weight_pct / 100) ≤ 5 * (d.weight_pct / 100) := by
        nlinarith [hd.1, hd.2.2]
      nlinarith
    
theorem sum_normalized_eq_twenty (ds : List DomainResult) :
    (ds.map (fun d => (d.score / 5) * d.weight_pct)).sum =
      20 * (ds.map (fun d => d.score * (d.weight_pct / 100))).sum := by
  induction ds with
  | nil => simp
  | cons d t ih =>
    simp only [List.map_cons, List.sum_cons, ih]
    ring

/-- C4: with positive weights summing to 100 and scores in [1,5],
`weighted_score ∈ [1,5]`, `composite_pct_score ∈ [0,100]`, and the composite
equals `weighted_score/5·100` up to the tolerance of the two independent
roundings (at most 21/200 = 0.105: one half-unit of the composite rounding
plus twenty times one half-unit of the weighted rounding). -/
theorem claim_C4_score_bounds_and_relation (ds : List DomainResult)
    (hw : ∀ d ∈ ds, 0 < d.weight_pct)
    (hs : ∀ d ∈ ds, 1 ≤ d.score ∧ d.score ≤ 5)
    (hsum : (ds.map (fun d => d.weight_pct)).sum = 100) :
    1 ≤ (compute_total_weighted_score ds).1 ∧
    (compute_total_weighted_score ds).1 ≤ 5 ∧
    0 ≤ (compute_total_weighted_score ds).2 ∧
    (compute_total_weighted_score ds).2 ≤ 100 ∧
    |(compute_total_weighted_score ds).2 -
        (compute_total_weighted_score ds).1 / 5 * 100| ≤ 21/200 := by
  have hb := sum_weighted_bounds ds
    (fun d hd => ⟨le_of_lt (hw d hd), (hs d hd).1, (hs d hd).2⟩)
  rw [hsum] at hb
  norm_num at hb
  set S := (ds.map (fun d => d.score * (d.weight_pct / 100))).sum with hS
  have hN := sum_normalized_eq_twenty ds
  rw [compute_total_weighted_score_eq, hN]
  dsimp only
  have h1 : (1:ℚ) ≤ round2 S := by
    have := le_round2 S 1 (by exact_mod_cast hb.1)
    exact_mod_cast this
  have h5 : round2 S ≤ 5 := by
    have := round2_le S 5 (by exact_mod_cast hb.2)
    exact_mod_cast this
  have h20 : (20:ℚ) ≤ round2 (20 * S) := by
    have := le_round2 (20 * S) 20 (by push_cast; linarith [hb.1])
    exact_mod_cast this
  have h100 : round2 (20 * S) ≤ 100 := by
    have := round2_le (20 * S) 100 (by push_cast; linarith [hb.2])
    exact_mod_cast this
  refine ⟨h1, h5, by linarith, h100, ?_⟩
  have e1 := abs_round2_sub (20 * S)
  have e2 := abs_round2_sub S
  rw [abs_le] at e1 e2 ⊢
  constructor <;> [linarith [e1.1, e2.2]; linarith [e1.2, e2.1]]

theorem claim_C4_witness :
    (∀ d ∈ ddq_all_fours, 0 < d.weight_pct) ∧
    (∀ d ∈ ddq_all_fours, 1 ≤ d.score ∧ d.score ≤ 5) ∧
    ((ddq_all_fours.map (fun d => d.weight_pct)).sum = 100) ∧
    (1 ≤ (compute_total_weighted_score ddq_all_fours).1 ∧
     (compute_total_weighted_score ddq_all_fours).1 ≤ 5 ∧
     0 ≤ (compute_total_weighted_score ddq_all_fours).2 ∧
     (compute_total_weighted_score ddq_all_fours).2 ≤ 100 ∧
     |(compute_total_weighted_score ddq_all_fours).2 -
        (compute_total_weighted_score ddq_all_fours).1 / 5 * 100| ≤ 21/200) :=
  ⟨by norm_num [ddq_all_fours], by norm_num [ddq_all_fours], by norm_num [ddq_all_fours],
   claim_C4_score_bounds_and_relation ddq_all_fours
     (by norm_num [ddq_all_fours]) (by norm_num [ddq_all_fours]) (by norm_num [ddq_all_fours])⟩

/-- C5 fails on the code: no load-time check of the domain weight sum
exists.  A domain configuration whose weights sum to 50 loads without error,
and the startup configuration validation (which examines only the Ollama URL
and the risk thresholds) passes as well — no fatal configuration error is
raised anywhere. -/
theorem claim_C5_counterexample :
    (half_weight_domains.map (fun d => d.weight)).sum = 50 ∧
    tprm_module_load half_weight_domains = Except.ok half_weight_domains ∧
    validate_config default_config = Except.ok () := by
  refine ⟨by norm_num [half_weight_domains], rfl, ?_⟩
  dsimp only [validate_config, default_config]
  rw [if_neg (by decide : ¬("http://localhost:11434/api/generate" = "")),
      if_neg (by norm_num : ¬((4:ℚ) ≤ 3))]
  rfl

/-- C5 (amended): the shipped `TPRM_DOMAINS` weights do sum to exactly 100,
but nothing ever checks this: loading the scoring model performs no weight
validation, `validate_config` does not examine domain weights, and a weight
sum differing from 100 is silently accepted — the scores are computed from
the raw weights without renormalization (a single domain carrying the whole
portfolio at weight 50 and score 4 yields (2.0, 40.0), not a renormalized
(4.0, 80.0)). -/
theorem claim_C5_amended_no_weight_sum_check :
    (TPRM_DOMAINS.map (fun d => d.weight)).sum = 100 ∧
    (∀ domains : List DomainDef, tprm_module_load domains = Except.ok domains) ∧
    compute_total_weighted_score
      [{ name := "Data Protection", weight_pct := 50, score := 4 }] = (2, 40) := by
  refine ⟨by norm_num [TPRM_DOMAINS], fun _ => rfl, ?_⟩
  norm_num [compute_total_weighted_score, round2, round_half_even]

/-- C9 fails on the code: with a validated configuration whose Low threshold
is 4.5, `classify_risk_level` still classifies 4.2 as "Low" because it uses
the hardcoded thresholds 4.0/3.0 and never reads the configuration; a
classifier driven by the configured thresholds would say "Medium". -/
theorem claim_C9_counterexample :
    validate_config cfg_raised_low = Except.ok () ∧
    classify_risk_level (21/5) = "Low" ∧
    classify_risk_level_spec cfg_raised_low (21/5) = "Medium" := by
  refine ⟨?_, ?_, ?_⟩
  · dsimp only [validate_config, cfg_raised_low]
    rw [if_neg (by decide : ¬("http://localhost:11434/api/generate" = "")),
        if_neg (by norm_num : ¬((9/2 : ℚ) ≤ 3))]
    rfl
  · norm_num [classify_risk_level]
  · norm_num [classify_risk_level_spec, cfg_raised_low]

/-- C9 (amended): the thresholds exist as configuration values and startup
validation accepts a configuration exactly when the URL is set and the Low
threshold strictly exceeds the Medium threshold (`main` exits fatally on the
raised error); but `classify_risk_level` does not read the configuration —
it always classifies with the fixed thresholds 4.0 and 3.0, which coincide
with the configured behaviour only at the default configuration. -/
theorem claim_C9_amended_hardcoded_thresholds :
    (∀ cfg : Config, validate_config cfg = Except.ok () ↔
        cfg.ollama_url ≠ "" ∧ cfg.risk_threshold_medium < cfg.risk_threshold_low) ∧
    (∀ w : ℚ, classify_risk_level w = classify_risk_level_spec default_config w) := by
  constructor
  · intro cfg
    unfold validate_config
    dsimp only
    split_ifs with h1 h2 h3 <;> simp_all [not_le]
  · intro w
    rfl

theorem lookup_writeText_self (fs : FS) (p c : String) :
    (writeText fs p c).lookup p = some c := by
  simp [writeText, List.lookup]

theorem lookup_filter_ne (l : FS) (p q : String) (h : q ≠ p) :
    (l.filter (fun pc => pc.1 != p)).lookup q = l.lookup q := by
  induction l with
  | nil => rfl
  | cons a t ih =>
    by_cases hap : a.1 = p
    · have hq : (q == a.1) = false := by
        rw [beq_eq_false_iff_ne]
        rw [hap]
        exact h
      have hqp : (q == p) = false := by rw [beq_eq_false_iff_ne]; exact h
      simp [List.filter_cons, hap, List.lookup, hq, hqp, ih]
    · by_cases hqa : q = a.1
      · simp [List.filter_cons, hap, List.lookup, hqa]
      · have hq : (q == a.1) = false := by rw [beq_eq_false_iff_ne]; exact hqa
        simp [List.filter_cons, hap, List.lookup, hq, ih]

theorem lookup_writeText_ne (fs : FS) (p q c : String) (h : q ≠ p) :
    (writeText fs p c).lookup q = fs.lookup q := by
  have hq : (q == p) = false := by rw [beq_eq_false_iff_ne]; exact h
  simp [writeText, List.lookup, hq, lookup_filter_ne fs p q h]

theorem filter_writeText_self (fs : FS) (p c : String) :
    (writeText fs p c).filter (fun pc => pc.1 == p) = [(p, c)] := by
  simp only [writeText, List.filter_cons, beq_self_eq_true, if_pos, List.filter_filter]
  have : ∀ a : String × String, ((a.1 == p) && (a.1 != p)) = false := by
    intro a
    by_cases hap : a.1 = p <;> simp [hap]
  simp [this]

theorem snapshot_history_ok_iff (fs : FS) (org vendor r t : String) (fs' : FS) :
    snapshot_history fs org vendor r t = Except.ok fs' ↔
    ∃ org' vendor' so sv,
      validate_organization_name org = Except.ok org' ∧
      validate_vendor_name vendor = Except.ok vendor' ∧
      sanitize_filename (pyReplace org' " " "_") = Except.ok so ∧
      sanitize_filename (pyReplace vendor' " " "_") = Except.ok sv ∧
      fs' = writeText fs (so ++ "_" ++ sv ++ "_" ++ t ++ ".json") r := by
  constructor
  · intro h
    cases h1 : validate_organization_name org with
    | error e => simp [snapshot_history, h1] at h
    | ok org' =>
      cases h2 : validate_vendor_name vendor with
      | error e => simp [snapshot_history, h1, h2] at h
      | ok vendor' =>
        cases h3 : sanitize_filename (pyReplace org' " " "_") with
        | error e => simp [snapshot_history, h1, h2, h3] at h
        | ok so =>
          cases h4 : sanitize_filename (pyReplace vendor' " " "_") with
          | error e => simp [snapshot_history, h1, h2, h3, h4] at h
          | ok sv =>
            simp only [snapshot_history, h1, h2, h3, h4, Except.ok.injEq] at h
            exact ⟨org', vendor', so, sv, rfl, rfl, h3, h4, h.symm⟩
  · rintro ⟨org', vendor', so, sv, h1, h2, h3, h4, rfl⟩
    simp [snapshot_history, h1, h2, h3, h4]

theorem snapshot_path_ne (so sv t1 t2 : String) (h : t1 ≠ t2) :
    so ++ "_" ++ sv ++ "_" ++ t1 ++ ".json" ≠ so ++ "_" ++ sv ++ "_" ++ t2 ++ ".json" := by
  intro he
  apply h
  apply String.ext
  have hd := congrArg String.data he
  simp only [String.data_append] at hd
  have h1 := List.append_cancel_right hd
  exact List.append_cancel_left h1

/-- C6 fails on the code: `now_iso()` has second resolution, and on a
same-second timestamp collision `snapshot_history` silently overwrites the
earlier snapshot via `Path.write_text` — the second call succeeds and a
single file holding only the second record remains. -/
theorem claim_C6_counterexample :
    (do
      let fs1 ← snapshot_history [] "Acme Corp" "VendorX" "rec1" "2026-01-01_00-00-00"
      snapshot_history fs1 "Acme Corp" "VendorX" "rec2" "2026-01-01_00-00-00"
      : Except String FS) =
    Except.ok [("Acme_Corp_VendorX_2026-01-01_00-00-00.json", "rec2")] := rfl

/-- C6 (amended): two successive snapshots of the same (org, vendor) leave
two distinct files only when their second-resolution timestamps differ; on a
timestamp collision the second call does not fail — it silently replaces the
earlier snapshot's content. -/
theorem claim_C6_amended_snapshot_overwrite :
    (∀ (fs0 : FS) (org vendor r1 r2 t1 t2 : String) (fs1 fs2 : FS),
      t1 ≠ t2 →
      snapshot_history fs0 org vendor r1 t1 = Except.ok fs1 →
      snapshot_history fs1 org vendor r2 t2 = Except.ok fs2 →
      ∃ p1 p2, p1 ≠ p2 ∧ fs2.lookup p1 = some r1 ∧ fs2.lookup p2 = some r2) ∧
    (∀ (fs0 : FS) (org vendor r1 r2 t : String) (fs1 : FS),
      snapshot_history fs0 org vendor r1 t = Except.ok fs1 →
      ∃ p fs2,
        snapshot_history fs1 org vendor r2 t = Except.ok fs2 ∧
        fs1.lookup p = some r1 ∧ fs2.lookup p = some r2 ∧
        fs2.filter (fun pc => pc.1 == p) = [(p, r2)]) := by
  constructor
  · intro fs0 org vendor r1 r2 t1 t2 fs1 fs2 hne h1 h2
    rw [snapshot_history_ok_iff] at h1 h2
    obtain ⟨o1, v1, so1, sv1, a1, b1, c1, d1, rfl⟩ := h1
    obtain ⟨o2, v2, so2, sv2, a2, b2, c2, d2, rfl⟩ := h2
    have ho := Except.ok.inj (a1.symm.trans a2)
    subst ho
    have hv := Except.ok.inj (b1.symm.trans b2)
    subst hv
    have hso := Except.ok.inj (c1.symm.trans c2)
    subst hso
    have hsv := Except.ok.inj (d1.symm.trans d2)
    subst hsv
    have hp : so1 ++ "_" ++ sv1 ++ "_" ++ t1 ++ ".json" ≠
        so1 ++ "_" ++ sv1 ++ "_" ++ t2 ++ ".json" :=
      snapshot_path_ne so1 sv1 t1 t2 hne
    refine ⟨_, _, hp, ?_, ?_⟩
    · rw [lookup_writeText_ne _ _ _ _ hp, lookup_writeText_self]
    · exact lookup_writeText_self _ _ _
  · intro fs0 org vendor r1 r2 t fs1 h1
    rw [snapshot_history_ok_iff] at h1
    obtain ⟨o1, v1, so1, sv1, a1, b1, c1, d1, rfl⟩ := h1
    refine ⟨so1 ++ "_" ++ sv1 ++ "_" ++ t ++ ".json", _,
      (snapshot_history_ok_iff _ _ _ _ _ _).mpr ⟨o1, v1, so1, sv1, a1, b1, c1, d1, rfl⟩,
      lookup_writeText_self _ _ _, lookup_writeText_self _ _ _,
      filter_writeText_self _ _ _⟩

theorem claim_C6_witness :
    ∃ p1 p2, p1 ≠ p2 ∧
      ([("Acme_Corp_VendorX_2026-01-01_00-00-01.json", "rec2"),
        ("Acme_Corp_VendorX_2026-01-01_00-00-00.json", "rec1")] : FS).lookup p1 = some "rec1" ∧
      ([("Acme_Corp_VendorX_2026-01-01_00-00-01.json", "rec2"),
        ("Acme_Corp_VendorX_2026-01-01_00-00-00.json", "rec1")] : FS).lookup p2 = some "rec2" :=
  claim_C6_amended_snapshot_overwrite.1 [] "Acme Corp" "VendorX" "rec1" "rec2"
    "2026-01-01_00-00-00" "2026-01-01_00-00-01"
    [("Acme_Corp_VendorX_2026-01-01_00-00-00.json", "rec1")]
    [("Acme_Corp_VendorX_2026-01-01_00-00-01.json", "rec2"),
     ("Acme_Corp_VendorX_2026-01-01_00-00-00.json", "rec1")]
    (by decide) rfl rfl

/-- C8 fails on the code: a row whose required control-score cell is empty
raises an uncaught `TypeError` from `int(None)` *before* the record-level
validation runs, aborting the whole import — the malformed row is not
skipped with a named-field reason, and the rows after it are never
processed (only the one earlier row was). -/
theorem claim_C8_counterexample :
    importer_run importer_required_cols "T" [rowOne, rowMissingScore, rowTwo] =
      ImportResult.aborted [RowOutcome.imported "OrgA" "VendorOne" recordOne]
        int_none_type_error := rfl

/-- C8 (amended): a row failing record validation (an empty required text
field such as the service description) is skipped with a reason naming the
missing field and the loop continues with the remaining rows, whatever they
are; but a row whose required control-score cell is empty raises an uncaught
`int(None)` conversion error that aborts the import immediately, leaving
every remaining row unprocessed. -/
theorem claim_C8_amended_scores_abort_import :
    (∀ (rest : List (List Cell)) (acc : List RowOutcome),
      runRows importer_required_cols "T" (rowEmptyService :: rest) acc =
        runRows importer_required_cols "T" rest
          (acc ++ [RowOutcome.skipped "VendorThree" "OrgA" ["service"]])) ∧
    (∀ (rest : List (List Cell)) (acc : List RowOutcome),
      runRows importer_required_cols "T" (rowMissingScore :: rest) acc =
        Except.error (acc, int_none_type_error)) := by
  have hskip : processRow importer_required_cols "T" rowEmptyService =
      Except.ok (RowOutcome.skipped "VendorThree" "OrgA" ["service"]) := rfl
  have habort : processRow importer_required_cols "T" rowMissingScore =
      Except.error int_none_type_error := rfl
  constructor <;> intro rest acc
  · simp only [runRows]
    rw [hskip]
  · simp only [runRows]
    rw [habort]

/-- C10: for every imported row (canonical column order, text fields
non-empty after stripping, integer control scores), the bulk importer sets
`overall_control_score` to the unweighted arithmetic mean of the five
control-domain scores rounded to 2 decimals, sets
`risk_bucket = classify_risk_bucket likelihood impact` on the lowercased
inputs, and produces a record containing neither a `weighted_score` nor a
`risk_level` field. -/
theorem claim_C10_import_record_shape
    (ts org vendor svc reg owner like imp : String) (a e l b p : ℤ)
    (ho : pyStrip org ≠ "") (hv : pyStrip vendor ≠ "") (hs : pyStrip svc ≠ "")
    (hw : pyStrip owner ≠ "") (hl : pyLower (pyStrip like) ≠ "")
    (hi : pyLower (pyStrip imp) ≠ "") :
    ∃ rec : VendorRecord,
      processRow importer_required_cols ts
          (mkRow org vendor svc reg owner like imp a e l b p) =
        Except.ok (RowOutcome.imported (pyStrip org) (pyStrip vendor) rec) ∧
      rec.lookup "overall_control_score" =
        some (PyVal.rat (round2 (((a + e + l + b + p : ℤ) : ℚ) / 5))) ∧
      rec.lookup "risk_bucket" =
        some (PyVal.str
          (classify_risk_bucket (pyLower (pyStrip like)) (pyLower (pyStrip imp)))) ∧
      rec.lookup "weighted_score" = Option.none ∧
      rec.lookup "risk_level" = Option.none := by
  refine ⟨[("org_id", PyVal.str (pyStrip org)),
    ("vendor_name", PyVal.str (pyStrip vendor)),
    ("service", PyVal.str (pyStrip svc)),
    ("regulator", PyVal.str (pyStrip reg)),
    ("business_owner", PyVal.str (pyStrip owner)),
    ("likelihood", PyVal.str (pyLower (pyStrip like))),
    ("impact", PyVal.str (pyLower (pyStrip imp))),
    ("risk_bucket", PyVal.str
      (classify_risk_bucket (pyLower (pyStrip like)) (pyLower (pyStrip imp)))),
    ("control_scores", PyVal.dict
      [("Access Control / Identity Management", PyVal.int a),
       ("Encryption & Key Management", PyVal.int e),
       ("Monitoring & Logging", PyVal.int l),
       ("Business Continuity / DR / Resilience", PyVal.int b),
       ("Privacy & Regulatory Compliance", PyVal.int p)]),
    ("overall_control_score", PyVal.rat (round2 (((a + e + l + b + p : ℤ) : ℚ) / 5))),
    ("assessed_at", PyVal.str ts),
    ("assessed_by", PyVal.str "import"),
    ("open_actions", PyVal.list []),
    ("risk_acceptances", PyVal.list [])], ?_, by simp [List.lookup],
    by simp [List.lookup], by simp [List.lookup], by simp [List.lookup]⟩
  have g1 : pyStr (getCol importer_required_cols
      (mkRow org vendor svc reg owner like imp a e l b p) "org_id") = org := rfl
  have g2 : pyStr (getCol importer_required_cols
      (mkRow org vendor svc reg owner like imp a e l b p) "vendor_name") = vendor := rfl
  have g3 : pyStr (getCol importer_required_cols
      (mkRow org vendor svc reg owner like imp a e l b p) "service_description") = svc := rfl
  have g4 : pyStr (getCol importer_required_cols
      (mkRow org vendor svc reg owner like imp a e l b p) "business_owner") = owner := rfl
  have g5 : pyStr (getCol importer_required_cols
      (mkRow org vendor svc reg owner like imp a e l b p) "likelihood") = like := rfl
  have g6 : pyStr (getCol importer_required_cols
      (mkRow org vendor svc reg owner like imp a e l b p) "impact") = imp := rfl
  have key : ∀ (rec : VendorRecord) (vn oi : String),
      validate_vendor_record rec = [] →
      ((if validate_vendor_record rec ≠ [] then
          (pure (RowOutcome.skipped vn oi (validate_vendor_record rec)) : Except String RowOutcome)
        else pure (RowOutcome.imported oi vn rec)) : Except String RowOutcome) =
        Except.ok (RowOutcome.imported oi vn rec) := by
    intro rec vn oi h
    rw [h]
    rfl
  exact key _ _ _
    (by simp [validate_vendor_record, required_fields, List.lookup,
          g1, g2, g3, g4, g5, g6, ho, hv, hs, hw, hl, hi])

theorem claim_C10_witness :
    ∃ rec : VendorRecord,
      processRow importer_required_cols "T"
          (mkRow "OrgA" "VendorOne" "Payroll" "GDPR" "Alice" "low" "high" 4 5 3 4 5) =
        Except.ok (RowOutcome.imported (pyStrip "OrgA") (pyStrip "VendorOne") rec) ∧
      rec.lookup "overall_control_score" =
        some (PyVal.rat (round2 (((4 + 5 + 3 + 4 + 5 : ℤ) : ℚ) / 5))) ∧
      rec.lookup "risk_bucket" =
        some (PyVal.str
          (classify_risk_bucket (pyLower (pyStrip "low")) (pyLower (pyStrip "high")))) ∧
      rec.lookup "weighted_score" = Option.none ∧
      rec.lookup "risk_level" = Option.none :=
  claim_C10_import_record_shape "T" "OrgA" "VendorOne" "Payroll" "GDPR" "Alice"
    "low" "high" 4 5 3 4 5
    (by decide) (by decide) (by decide) (by decide) (by decide) (by decide)
